import Mathlib

/-!
Verification of the conversation-relay orchestrator of the
openai-whatsapp-chatbot repository.

The development shallowly embeds the two webhook handlers of the
repository — the Twilio transport (`app/whatsapp/app.py`) and the
WhatsApp Cloud transport (`app/whatsapp_cloud_app.py`) — together with
the outbound-message chunker, the WhatsApp Cloud webhook parser
(`chat/clients/whatsapp_cloud.py`) and the webhook verification
endpoint.  External collaborators (completion service, language
detection, image generation, conversation-end classifier) are passed
in as function parameters, matching their role as oracles outside the
orchestrator core.  Python strings are modelled as Lean strings
(sequences of code points, as Python indexes and measures them).
-/

namespace ChatBot

/-- One transcript entry, mirroring the `{"role": ..., "content": ...}`
dictionaries kept in `chat.messages`. -/
structure Message where
  role : String
  content : String
deriving DecidableEq, Repr

/-- Sender identity as built by both handlers from the inbound payload. -/
structure Sender where
  phone_number : String
  name : String
deriving DecidableEq, Repr

/-- The mutable per-sender conversation state touched by a turn: the
ordered transcript, the stored system-prompt template rendering and the
configured goodbye template.  (The conversation store itself,
`OpenAIChatManager`, is not under `src/`; a turn receives the resolved
conversation as input.) -/
structure Chat where
  sender : Sender
  messages : List Message
  start_system_message : Option String
  goodbye_message : String
deriving DecidableEq, Repr

/-- Observable actions of a turn, in the order the handler performs
them: outbound sends, transcript appends, collaborator invocations and
the final persist. -/
inductive Event where
  | sentText (dest text : String)
  | sentImage (dest url caption : String)
  | markedRead (id : String)
  | appended (m : Message)
  | ensuredLanguage (text : String)
  | invokedImageGen (prompt : String)
  | transcribed (url : String)
  | saved
deriving DecidableEq, Repr

def isLangEvent : Event → Bool
  | Event.ensuredLanguage _ => true
  | _ => false

def isAssistAppend : Event → Bool
  | Event.appended m => m.role == "assistant"
  | _ => false

def isSendEvent : Event → Bool
  | Event.sentText _ _ => true
  | _ => false

def isImgInvoke : Event → Bool
  | Event.invokedImageGen _ => true
  | _ => false

/-! ### Python string helpers -/

/-- Characters stripped by Python `str.strip()` (the ASCII whitespace
subset; the handlers only test emptiness after stripping). -/
def isPySpace (c : Char) : Bool :=
  c == ' ' || c == '\t' || c == '\n' || c == '\r' || c == '\x0b' || c == '\x0c'

/-- Python `s.strip()`: remove leading and trailing whitespace. -/
def pyStrip (s : String) : String :=
  String.mk ((((s.toList.dropWhile isPySpace).reverse).dropWhile isPySpace).reverse)

/-- One left-to-right pass replacing each listed pattern occurrence by
its substitution; fuel-indexed so the definition is structural and
kernel-evaluable.  This is the behaviour of Python `str.format` on the
templates used by the handlers (plain text with `\x7buser\x7d` /
`\x7btoday\x7d` fields). -/
def formatSubstAux (subs : List (List Char × List Char)) : Nat → List Char → List Char
  | 0, l => l
  | _ + 1, [] => []
  | fuel + 1, c :: cs =>
    match subs.find? (fun pr => pr.1.isPrefixOf (c :: cs)) with
    | some pr => pr.2 ++ formatSubstAux subs fuel ((c :: cs).drop pr.1.length)
    | Option.none => c :: formatSubstAux subs fuel cs

def userPat : List Char := "\x7buser\x7d".toList

def todayPat : List Char := "\x7btoday\x7d".toList

/-- Python `tpl.format(user=user, today=today)` as both handlers call it
on the start-system-message template. -/
def pyFormat (tpl user today : String) : String :=
  String.mk (formatSubstAux [(userPat, user.toList), (todayPat, today.toList)]
    tpl.toList.length tpl.toList)

/-- Python `tpl.format(user=user)` as the Twilio handler calls it on the
goodbye template. -/
def pyFormatUser (tpl user : String) : String :=
  String.mk (formatSubstAux [(userPat, user.toList)] tpl.toList.length tpl.toList)

/-! ### The reply chunker

Both handlers relay the cleaned reply with the same code:

    if len(reply) > 1600:
        for i in range(0, len(reply), 1500):
            chunk = reply[i:i+1500]
            if i + 1500 < len(reply):
                chunk += "..."
            client.send_message(... chunk ...)
    else:
        client.send_message(... reply ...)
-/

def dots : List Char := ['.', '.', '.']

/-- Number of iterations of `range(0, L, 1500)` for `L > 0`:
the ceiling of `L / 1500`. -/
def numChunks (L : Nat) : Nat := (L + 1499) / 1500

/-- The raw slice `reply[i:i+1500]` at `i = k * 1500`. -/
def rawChunk (r : List Char) (k : Nat) : List Char := (r.drop (k * 1500)).take 1500

/-- The sequence of outbound message bodies produced by the relay code
above, on the reply text viewed as its list of code points. -/
def replyChunksL (r : List Char) : List (List Char) :=
  if 1600 < r.length then
    (List.range (numChunks r.length)).map (fun k =>
      if k * 1500 + 1500 < r.length then rawChunk r k ++ dots else rawChunk r k)
  else [r]

def replyChunks (reply : String) : List String :=
  (replyChunksL reply.toList).map (fun l => String.mk l)


/-! ### The Twilio transport handler (`app/whatsapp/app.py`) -/

/-- The fixed notice used both for unintelligible input (line 127) and
as the `on_failure` substitute of every reply send (lines 104, 110). -/
def didntUnderstand : String := "Sorry, I didn\x27t understand that. Please try again."

/-- The system audit message recorded for an image directive:
`f string [img:\"\x7bimg_prompt\x7d\"]` (line 116). -/
def imgDirective (p : String) : String := "[img:\"" ++ p ++ "\"]"

/-- `check_message_empty` (lines 139-143): the message is `None` or
blank after stripping. -/
def check_message_empty (msg : Option String) : Bool :=
  match msg with
  | Option.none => true
  | some m => pyStrip m == ""

/-- System-message refresh of the Twilio handler (lines 72-76): when a
start template is configured, re-render it with the sender name and the
current date, store it and overwrite `messages[0]` in place. -/
def twilioSetSystem (tpl : Option String) (userName today : String) (c : Chat) : Chat :=
  match tpl with
  | Option.none => c
  | some t =>
    let rendered := pyFormat t userName today
    { c with start_system_message := some rendered,
             messages := c.messages.set 0 ⟨"system", rendered⟩ }

/-- `message_empty_or_goodbye` (lines 125-137).  The conversation-end
classifier `check_conversation_end` lives in `app/handlers` (not under
`src/`) and is passed in as the oracle `convEnds`.  Returns the boolean
result together with the sends it performs. -/
def message_empty_or_goodbye (convEnds : String → Bool) (msg : Option String) (c : Chat) :
    Bool × List Event :=
  if check_message_empty msg then
    (true, [Event.sentText c.sender.phone_number didntUnderstand])
  else if convEnds (msg.getD "") then
    (true, [Event.sentText c.sender.phone_number (pyFormatUser c.goodbye_message c.sender.name)])
  else (false, [])

/-- The sequence of sends of the relay loop in the Twilio handler, with
the loop counter made explicit.  The Twilio client (`chat/clients/twilio.py`,
not under `src/`) receives `on_failure=didntUnderstand`; per the spec a
failed send delivers that fixed apology in place of the chunk and does
not propagate, which `fails` selects per attempt. -/
def twilioSendEvents (phone : String) (fails : Nat → Bool) :
    List String → Nat → List Event
  | [], _ => []
  | c :: cs, k =>
    Event.sentText phone (if fails k then didntUnderstand else c) ::
      twilioSendEvents phone fails cs (k + 1)

/-- Steps 4-10 of an active Twilio turn (lines 84-119): language
bootstrap when only the system message is present, user append,
completion, directive extraction (`verify_image_generation`, an oracle,
`app/handlers` not being under `src/`), chunked relay, assistant append,
optional directive fulfilment and the final save. -/
def twilioActiveCore (completion : List Message → String)
    (imgExtract : String → String × Option String) (sendFails : Nat → Bool)
    (c1 : Chat) (m : String) : Chat × List Event :=
  let evLang : List Event :=
    if c1.messages.length = 1 then [Event.ensuredLanguage m] else []
  let c2 : Chat := { c1 with messages := c1.messages ++ [⟨"user", m⟩] }
  let pr := imgExtract (pyStrip (completion c2.messages))
  let reply := pr.1
  let sendEvs := twilioSendEvents c1.sender.phone_number sendFails (replyChunks reply) 0
  let c3 : Chat := { c2 with messages := c2.messages ++ [⟨"assistant", reply⟩] }
  (match pr.2 with
   | some p => { c3 with messages := c3.messages ++ [⟨"system", imgDirective p⟩] }
   | Option.none => c3,
   evLang ++ Event.appended ⟨"user", m⟩ :: sendEvs ++
     Event.appended ⟨"assistant", reply⟩ ::
     (match pr.2 with
      | some p => [Event.appended ⟨"system", imgDirective p⟩,
                   Event.invokedImageGen p, Event.saved]
      | Option.none => [Event.saved]))

/-- One full turn of `reply_to_whatsapp_message` (lines 64-123), given
the resolved conversation (`OpenAIChatManager.get_or_create` is not
under `src/`; per spec §4.1 it returns the stored conversation of the
sender, seeded with one system message on creation) and the normalized
message text produced by `verify_and_process_media`. -/
def twilioTurn (tpl : Option String) (today : String) (chat0 : Chat)
    (msg : Option String) (convEnds : String → Bool)
    (completion : List Message → String)
    (imgExtract : String → String × Option String) (sendFails : Nat → Bool) :
    Chat × List Event :=
  let c1 := twilioSetSystem tpl chat0.sender.name today chat0
  let chk := message_empty_or_goodbye convEnds msg c1
  if chk.1 then (c1, chk.2)
  else twilioActiveCore completion imgExtract sendFails c1 (msg.getD "")


/-! ### The WhatsApp Cloud transport (`app/whatsapp_cloud_app.py` and
`chat/clients/whatsapp_cloud.py`) -/

/-- System-message step of the Cloud handler (lines 105-110): the
re-rendered prompt is stored in `chat.start_system_message`, and a
system message is *inserted* at index 0 only when index 0 is absent or
not system-role; an existing system message at index 0 is left as it
is. -/
def cloudSetSystem (tpl : Option String) (userName today : String) (c : Chat) : Chat :=
  match tpl with
  | Option.none => c
  | some t =>
    let rendered := pyFormat t userName today
    let c1 : Chat := { c with start_system_message := some rendered }
    if c1.messages.length = 0 ∨ (c1.messages.head?.map Message.role) ≠ some "system" then
      { c1 with messages := ⟨"system", rendered⟩ :: c1.messages }
    else c1

/-- JSON-like Python values carried by the Cloud webhook body. -/
inductive PyVal where
  | str (s : String)
  | obj (fields : List (String × PyVal))
  | arr (elems : List PyVal)
  | none

/-- The Python exceptions distinguished by `parse_whatsapp_message`:
`KeyError` and `IndexError` are caught (returning `None`), every other
exception (such as `TypeError`) escapes. -/
inductive PyErr where
  | typeErr
  | keyErr
  | indexErr
deriving DecidableEq, Repr

/-- Python `v[k]` for a string key: dict lookup (`KeyError` when
missing), `TypeError` on any non-dict. -/
def pyIndexS (v : PyVal) (k : String) : Except PyErr PyVal :=
  match v with
  | PyVal.obj fs =>
    match fs.lookup k with
    | some x => Except.ok x
    | Option.none => Except.error PyErr.keyErr
  | _ => Except.error PyErr.typeErr

/-- Python `v[i]` for an integer index: list indexing (`IndexError` out
of bounds), one-character string for strings, `KeyError` for a dict
without that key, `TypeError` otherwise. -/
def pyIndexN (v : PyVal) (i : Nat) : Except PyErr PyVal :=
  match v with
  | PyVal.arr xs =>
    match xs[i]? with
    | some x => Except.ok x
    | Option.none => Except.error PyErr.indexErr
  | PyVal.str s =>
    match s.toList[i]? with
    | some c => Except.ok (PyVal.str (String.mk [c]))
    | Option.none => Except.error PyErr.indexErr
  | PyVal.obj _ => Except.error PyErr.keyErr
  | PyVal.none => Except.error PyErr.typeErr

/-- Whether a `PyVal` equals a given Python string under `==`. -/
def PyVal.isStrEq : PyVal → String → Bool
  | PyVal.str s, t => s == t
  | _, _ => false

def listContainsSub (pat : List Char) : List Char → Bool
  | [] => pat.isEmpty
  | c :: cs => pat.isPrefixOf (c :: cs) || listContainsSub pat cs

/-- Python `k in v` for a string `k`: key containment for dicts,
substring test for strings, membership for lists, `TypeError`
otherwise. -/
def pyContainsKey (v : PyVal) (k : String) : Except PyErr Bool :=
  match v with
  | PyVal.obj fs => Except.ok (fs.lookup k).isSome
  | PyVal.str s => Except.ok (listContainsSub k.toList s.toList)
  | PyVal.arr xs => Except.ok (xs.any (fun x => x.isStrEq k))
  | PyVal.none => Except.error PyErr.typeErr

/-- Python `v.get(k, dflt)`: dict lookup with default; calling `.get` on
a non-dict raises (`AttributeError`, modelled as the uncaught
`typeErr`). -/
def pyGetAttr (v : PyVal) (k : String) (dflt : PyVal) : Except PyErr PyVal :=
  match v with
  | PyVal.obj fs => Except.ok ((fs.lookup k).getD dflt)
  | _ => Except.error PyErr.typeErr

/-- The string content of a leaf value; the handlers pass parsed fields
(`from`, `name`, `text`, ...) straight into sends and transcript
appends, and every claim exercises them on string leaves only. -/
def pyToString : PyVal → String
  | PyVal.str s => s
  | _ => ""

/-- The canonical inbound-message record returned by
`parse_whatsapp_message` (lines 128-137). -/
structure MessageData where
  from_ : PyVal
  name : PyVal
  message_id : PyVal
  timestamp : PyVal
  type : PyVal
  text : PyVal
  image : PyVal
  audio : PyVal

/-- Body of the `try` block of `parse_whatsapp_message` (lines 119-137),
propagating Python exceptions in the `Except` monad.  When the `value`
object has no `"messages"` key the function falls through the `if` and
implicitly returns `None`. -/
def parseBody (webhook_data : PyVal) : Except PyErr (Option MessageData) := do
  let entryArr ← pyIndexS webhook_data "entry"
  let entry ← pyIndexN entryArr 0
  let changesArr ← pyIndexS entry "changes"
  let changes ← pyIndexN changesArr 0
  let value ← pyIndexS changes "value"
  let hasMsgs ← pyContainsKey value "messages"
  if hasMsgs then
    let msgsArr ← pyIndexS value "messages"
    let message ← pyIndexN msgsArr 0
    let contactsArr ← pyIndexS value "contacts"
    let contact ← pyIndexN contactsArr 0
    let fromV ← pyIndexS message "from"
    let profile ← pyIndexS contact "profile"
    let nameV ← pyIndexS profile "name"
    let midV ← pyIndexS message "id"
    let tsV ← pyIndexS message "timestamp"
    let typeV ← pyIndexS message "type"
    let textV ←
      if typeV.isStrEq "text" then do
        let t ← pyGetAttr message "text" (PyVal.obj [])
        pyGetAttr t "body" (PyVal.str "")
      else pure PyVal.none
    let imageV ←
      if typeV.isStrEq "image" then pyGetAttr message "image" PyVal.none
      else pure PyVal.none
    let audioV ←
      if typeV.isStrEq "audio" then pyGetAttr message "audio" PyVal.none
      else pure PyVal.none
    pure (some ⟨fromV, nameV, midV, tsV, typeV, textV, imageV, audioV⟩)
  else
    pure Option.none

/-- `parse_whatsapp_message` (lines 117-140): `KeyError` and
`IndexError` are caught and turned into `None`; other exceptions
escape. -/
def parse_whatsapp_message (webhook_data : PyVal) : Except PyErr (Option MessageData) :=
  match parseBody webhook_data with
  | Except.ok r => Except.ok r
  | Except.error PyErr.keyErr => Except.ok Option.none
  | Except.error PyErr.indexErr => Except.ok Option.none
  | Except.error PyErr.typeErr => Except.error PyErr.typeErr

/-- Outcomes of the external collaborators of one Cloud turn.
`sendFails k` makes the `k`-th reply send raise
(`WhatsAppCloudClient.send_message`, lines 51-57, re-raises request
failures); `imgGen` is the result of `check_and_send_image_generation`
(raising, or returning an optional image url); `imgSendFails` and
`apologySendFails` make the image send and the apology send raise. -/
structure CloudOracles where
  completion : List Message → String
  imgExtract : String → String × Option String
  sendFails : Nat → Bool
  markReadFails : Bool
  imgGen : Except Unit (Option String)
  imgSendFails : Bool
  apologySendFails : Bool

/-- The fixed apology of the Cloud image branch (lines 159-162). -/
def imgApology : String := "Sorry, I couldn\x27t generate the image. Please try again."

/-- The reply-relay loop of the Cloud handler: each send either succeeds
(producing its event) or raises, aborting the loop; the error carries
the events of the sends already performed. -/
def sendAllCloud (phone : String) (fails : Nat → Bool) :
    List String → Nat → Except (List Event) (List Event)
  | [], _ => Except.ok []
  | c :: cs, k =>
    if fails k then Except.error []
    else
      match sendAllCloud phone fails cs (k + 1) with
      | Except.ok evs => Except.ok (Event.sentText phone c :: evs)
      | Except.error evs => Except.error (Event.sentText phone c :: evs)

/-- The image branch of the Cloud handler (lines 146-162): the whole
block is wrapped in `try`, the handler's own apology send may itself
raise (escaping to the outer handler). -/
def cloudImgBlock (o : CloudOracles) (dest p : String) : Except (List Event) (List Event) :=
  match o.imgGen with
  | Except.error _ =>
    if o.apologySendFails then Except.error [Event.invokedImageGen p]
    else Except.ok [Event.invokedImageGen p, Event.sentText dest imgApology]
  | Except.ok Option.none => Except.ok [Event.invokedImageGen p]
  | Except.ok (some url) =>
    if o.imgSendFails then
      if o.apologySendFails then Except.error [Event.invokedImageGen p]
      else Except.ok [Event.invokedImageGen p, Event.sentText dest imgApology]
    else Except.ok [Event.invokedImageGen p,
      Event.sentImage dest url ("Generated image: " ++ p)]

/-- The per-message part of `process_webhook` (lines 94-164), from
`mark_as_read` on, for a parsed text message: resolve the conversation
(`chat0`), refresh the system message, bootstrap the language on a
1-message transcript, append the user turn, complete, extract a
directive, relay (sends may raise: the outer `except` then answers
`{"status": "error"}, 500` and the turn stops — note the user message
stays appended and the handler never calls `chat.save()`), append the
assistant turn and run the image branch. -/
def cloudHandleMessage (tpl : Option String) (today : String) (o : CloudOracles)
    (md : MessageData) (chat0 : Chat) : (String × Nat) × Chat × List Event :=
  if o.markReadFails then (("error", 500), chat0, []) else
  let mrEv := Event.markedRead (pyToString md.message_id)
  let dest := pyToString md.from_
  let text := pyToString md.text
  let c1 := cloudSetSystem tpl (pyToString md.name) today chat0
  let evLang : List Event :=
    if c1.messages.length = 1 then [Event.ensuredLanguage text] else []
  let c2 : Chat := { c1 with messages := c1.messages ++ [⟨"user", text⟩] }
  let pr := o.imgExtract (pyStrip (o.completion c2.messages))
  let reply := pr.1
  match sendAllCloud dest o.sendFails (replyChunks reply) 0 with
  | Except.error sendEvs =>
    (("error", 500), c2, mrEv :: (evLang ++ Event.appended ⟨"user", text⟩ :: sendEvs))
  | Except.ok sendEvs =>
    let c3 : Chat := { c2 with messages := c2.messages ++ [⟨"assistant", reply⟩] }
    match pr.2 with
    | Option.none =>
      (("ok", 200), c3, mrEv :: (evLang ++ Event.appended ⟨"user", text⟩ :: sendEvs ++
        [Event.appended ⟨"assistant", reply⟩]))
    | some p =>
      match cloudImgBlock o dest p with
      | Except.ok imgEvs =>
        (("ok", 200), c3, mrEv :: (evLang ++ Event.appended ⟨"user", text⟩ :: sendEvs ++
          Event.appended ⟨"assistant", reply⟩ :: imgEvs))
      | Except.error imgEvs =>
        (("error", 500), c3, mrEv :: (evLang ++ Event.appended ⟨"user", text⟩ :: sendEvs ++
          Event.appended ⟨"assistant", reply⟩ :: imgEvs))

/-- `process_webhook` (lines 78-168): unparseable payloads are answered
with an ok acknowledgment, non-text messages are acknowledged and
dropped, and any escaped exception is answered by the outer `except`
with an error status. -/
def process_webhook (tpl : Option String) (today : String) (o : CloudOracles)
    (data : PyVal) (chat0 : Chat) : (String × Nat) × Chat × List Event :=
  match parse_whatsapp_message data with
  | Except.error _ => (("error", 500), chat0, [])
  | Except.ok Option.none => (("ok", 200), chat0, [])
  | Except.ok (some md) =>
    if md.type.isStrEq "text" then cloudHandleMessage tpl today o md chat0
    else (("ok", 200), chat0, [])

/-- `verify_webhook` (lines 61-75): answer the `hub.challenge` value
with 200 exactly when `hub.mode` is `"subscribe"` and `hub.verify_token`
matches the configured token (the `WHATSAPP_VERIFY_TOKEN` environment
variable, defaulting to `"your-verify-token"`), `"Forbidden"`/403
otherwise. -/
def verify_webhook (envToken : Option String) (mode token challenge : Option String) :
    Option String × Nat :=
  let verify_token := envToken.getD "your-verify-token"
  if mode = some "subscribe" ∧ token = some verify_token then (challenge, 200)
  else (some "Forbidden", 403)

/-! ### Inbound media normalization (Twilio transport) -/

/-- Binary media carried by an inbound Twilio message. -/
inductive TwilioMedia where
  | audio (url : String)
  | image (url : String)
deriving DecidableEq, Repr

/-- An inbound Twilio message after `parse_request_values`: its text
body, if any, and its media attachment, if any. -/
structure TwilioInbound where
  body : Option String
  media : Option TwilioMedia

/-- Modelled from the spec: `verify_and_process_media` lives in
`app/handlers`, which is not under `src/`.  Per spec §4.2 step 2, a
message with binary media is normalized first — audio is sent to the
Transcription Service yielding its text, and empty or failed media
yields an empty content string; a plain message keeps its text.
`transcribe` returns `none` on a failed or empty transcription. -/
def verify_and_process_media (transcribe : String → Option String) (inb : TwilioInbound) :
    Option String × List Event :=
  match inb.media with
  | some (TwilioMedia.audio url) =>
    (some ((transcribe url).getD ""), [Event.transcribed url])
  | some (TwilioMedia.image _) => (some "", [])
  | Option.none => (inb.body, [])

/-- The Twilio turn from the raw inbound message: media normalization
(line 79) feeds the normalized text into the rest of the turn. -/
def twilioTurnFromInbound (transcribe : String → Option String) (tpl : Option String)
    (today : String) (chat0 : Chat) (inb : TwilioInbound) (convEnds : String → Bool)
    (completion : List Message → String)
    (imgExtract : String → String × Option String) (sendFails : Nat → Bool) :
    Chat × List Event :=
  let pr := verify_and_process_media transcribe inb
  let res := twilioTurn tpl today chat0 pr.1 convEnds completion imgExtract sendFails
  (res.1, pr.2 ++ res.2)

/-! ### Multi-turn runs of the Twilio handler -/

/-- The varying inputs of one Twilio turn. -/
structure TurnIn where
  today : String
  msg : Option String
  convEnds : String → Bool
  completion : List Message → String
  imgExtract : String → String × Option String
  sendFails : Nat → Bool

/-- A message passes the termination check exactly when it is a
non-blank string not classified as a goodbye. -/
def activeMsg (convEnds : String → Bool) (msg : Option String) : Bool :=
  match msg with
  | Option.none => false
  | some m => !(pyStrip m == "") && !(convEnds m)

/-- A turn passes the termination check exactly when its message is a
non-blank string not classified as a goodbye. -/
def isActiveIn (i : TurnIn) : Bool := activeMsg i.convEnds i.msg

/-- Run a sequence of turns against the same stored conversation,
collecting each turn's events. -/
def runTwilio (tpl : Option String) : Chat → List TurnIn → Chat × List (List Event)
  | c, [] => (c, [])
  | c, i :: is =>
    let st := twilioTurn tpl i.today c i.msg i.convEnds i.completion i.imgExtract i.sendFails
    let rest := runTwilio tpl st.1 is
    (rest.1, st.2 :: rest.2)

/-- One `1` at the first active turn, `0` everywhere else. -/
def firstActiveMark : List TurnIn → List Nat
  | [] => []
  | i :: is =>
    if isActiveIn i then 1 :: is.map (fun _ => 0) else 0 :: firstActiveMark is

/-- A concrete stored conversation used to instantiate theorems: one
seeded system message, as a freshly created conversation has. -/
def demoChat : Chat :=
  ⟨⟨"+15551234567", "Ann"⟩, [⟨"system", "seed"⟩], Option.none, "Goodbye \x7buser\x7d"⟩

/-- A concrete returning conversation: system message plus one earlier
exchange. -/
def demoChat3 : Chat :=
  ⟨⟨"+15551234567", "Ann"⟩,
   [⟨"system", "old"⟩, ⟨"user", "hi"⟩, ⟨"assistant", "hello"⟩],
   Option.none, "Goodbye \x7buser\x7d"⟩

def isSavedEvent : Event → Bool
  | Event.saved => true
  | _ => false

/-- System-role appends recording an image directive. -/
def isSysAppend : Event → Bool
  | Event.appended m => m.role == "system"
  | _ => false

/-- A concrete active turn input. -/
def demoTurnIn : TurnIn :=
  ⟨"2026-02-03", some "hola", fun _ => false, fun _ => "hi there",
   fun r => (r, Option.none), fun _ => false⟩

/-- Concrete Cloud oracles whose every reply send raises. -/
def demoOraclesFail : CloudOracles :=
  ⟨fun _ => "hello there", fun r => (r, Option.none), fun _ => true, false,
   Except.ok Option.none, false, false⟩

/-- A concrete parsed inbound Cloud text message. -/
def demoMd : MessageData :=
  ⟨PyVal.str "15551234567", PyVal.str "Ann", PyVal.str "wamid.1", PyVal.str "0",
   PyVal.str "text", PyVal.str "hi", PyVal.none, PyVal.none⟩

/-- Concrete Cloud oracles whose reply carries an image directive and
whose sends all succeed. -/
def demoOraclesImg : CloudOracles :=
  ⟨fun _ => "ok", fun r => (r, some "sunset"), fun _ => false, false,
   Except.ok (some "img-url"), false, false⟩

/-- A concrete Cloud webhook payload carrying a voice note. -/
def demoAudioPayload : PyVal :=
  PyVal.obj [("entry", PyVal.arr [PyVal.obj [("changes", PyVal.arr [PyVal.obj
    [("value", PyVal.obj
      [("messages", PyVal.arr [PyVal.obj
        [("from", PyVal.str "15551234567"), ("id", PyVal.str "wamid.2"),
         ("timestamp", PyVal.str "0"), ("type", PyVal.str "audio"),
         ("audio", PyVal.obj [("id", PyVal.str "media-1")])]]),
       ("contacts", PyVal.arr [PyVal.obj
         [("profile", PyVal.obj [("name", PyVal.str "Ann")])]])])]])]])]

/-! ### Proofs -/

/-- Concatenating the first `n` raw slices recovers the first `n * 1500`
code points of the reply. -/
lemma join_rawChunks (r : List Char) (n : Nat) :
    ((List.range n).map (fun k => rawChunk r k)).flatten = r.take (n * 1500) := by
  induction n with
  | zero => simp
  | succ n ih =>
    rw [List.range_succ, List.map_append, List.flatten_append, ih]
    have h : (n + 1) * 1500 = n * 1500 + 1500 := by ring
    rw [h, List.take_add]
    simp [rawChunk]

lemma length_le_numChunks_mul (L : Nat) : L ≤ numChunks L * 1500 := by
  unfold numChunks
  omega

/-- Joining all raw slices reconstructs the whole reply. -/
lemma join_rawChunks_all (r : List Char) :
    ((List.range (numChunks r.length)).map (fun k => rawChunk r k)).flatten = r := by
  rw [join_rawChunks]
  exact List.take_of_length_le (length_le_numChunks_mul r.length)

lemma replyChunksL_length (r : List Char) (h : 1600 < r.length) :
    (replyChunksL r).length = numChunks r.length := by
  simp [replyChunksL, if_pos h]

lemma replyChunksL_get (r : List Char) (h : 1600 < r.length) (k : Nat)
    (hk : k < numChunks r.length) :
    (replyChunksL r)[k]? =
      some (if k * 1500 + 1500 < r.length then rawChunk r k ++ dots else rawChunk r k) := by
  simp [replyChunksL, if_pos h, List.getElem?_map, List.getElem?_range hk]

/-- The suffix test `i + 1500 < len(reply)` holds exactly on the
non-final iterations of the loop. -/
lemma chunk_nonfinal_iff (L k : Nat) (hk : k < numChunks L) :
    (k * 1500 + 1500 < L) ↔ (k + 1 < numChunks L) := by
  unfold numChunks at hk ⊢
  omega

@[simp] lemma twilioSetSystem_sender (tpl : Option String) (u d : String) (c : Chat) :
    (twilioSetSystem tpl u d c).sender = c.sender := by
  cases tpl <;> simp [twilioSetSystem]

@[simp] lemma twilioSetSystem_goodbye (tpl : Option String) (u d : String) (c : Chat) :
    (twilioSetSystem tpl u d c).goodbye_message = c.goodbye_message := by
  cases tpl <;> simp [twilioSetSystem]

@[simp] lemma twilioSetSystem_length (tpl : Option String) (u d : String) (c : Chat) :
    (twilioSetSystem tpl u d c).messages.length = c.messages.length := by
  cases tpl <;> simp [twilioSetSystem]

/-- C1, counterexample: a reply of length 1550 is sent as a single
message (the splitting loop is only entered above 1600 characters), so
the number of relayed chunks is 1 and not ceil(1550/1500) = 2; the
claimed chunk-count formula fails on it. -/
theorem C1_counterexample :
    (replyChunksL (List.replicate 1550 'a')).length ≠ (1550 + 1500 - 1) / 1500 := by
  have h : ¬ (1600 < (List.replicate 1550 'a').length) := by
    rw [List.length_replicate]; omega
  rw [replyChunksL, if_neg h]
  norm_num

/-- C1 (amended): when the cleaned reply is longer than 1600 characters
the relay produces exactly ceil(L/1500) chunks — each non-final chunk is
the raw 1500-character slice followed by "...", the final chunk is the
remaining raw slice — and concatenating the raw slices in order
reconstructs the reply; when the length is at most 1600 (including
1500 < L ≤ 1600) the reply is relayed as one single message.  With no
send failures the chunks are relayed in exactly this order. -/
theorem C1_theorem (r : List Char) (h : 1600 < r.length) :
    ((replyChunksL r).length = numChunks r.length ∧
      numChunks r.length = (r.length + 1500 - 1) / 1500) ∧
    (∀ k, k + 1 < (replyChunksL r).length →
      (replyChunksL r)[k]? = some (rawChunk r k ++ dots)) ∧
    (∀ k, k + 1 = (replyChunksL r).length →
      (replyChunksL r)[k]? = some (rawChunk r k)) ∧
    ((List.range (numChunks r.length)).map (fun k => rawChunk r k)).flatten = r ∧
    (∀ s : List Char, s.length ≤ 1600 → replyChunksL s = [s]) ∧
    (∀ phone chunks k0, twilioSendEvents phone (fun _ => false) chunks k0 =
      chunks.map (fun c => Event.sentText phone c)) := by
  refine ⟨⟨replyChunksL_length r h, by unfold numChunks; omega⟩, ?_, ?_,
    join_rawChunks_all r, ?_, ?_⟩
  · intro k hk
    rw [replyChunksL_length r h] at hk
    have hk' : k < numChunks r.length := by omega
    rw [replyChunksL_get r h k hk',
      if_pos ((chunk_nonfinal_iff r.length k hk').2 hk)]
  · intro k hk
    rw [replyChunksL_length r h] at hk
    have hk' : k < numChunks r.length := by omega
    have hnf : ¬ (k + 1 < numChunks r.length) := by omega
    rw [replyChunksL_get r h k hk',
      if_neg (fun hc => hnf ((chunk_nonfinal_iff r.length k hk').1 hc))]
  · intro s hs
    rw [replyChunksL, if_neg (by omega)]
  · intro phone chunks k0
    induction chunks generalizing k0 with
    | nil => rfl
    | cons c cs ih => simp [twilioSendEvents, ih]

/-- C1, witness: the amended theorem applied to a concrete 1601-character
reply. -/
theorem C1_witness :
    (replyChunksL (List.replicate 1601 'a')).length =
      numChunks (List.replicate 1601 'a').length :=
  (C1_theorem (List.replicate 1601 'a') (by rw [List.length_replicate]; omega)).1.1

/-- C2, counterexample: in the Cloud handler, on a returning
conversation whose index 0 already holds a system message, the
system-message step leaves the stale index-0 content in place instead
of overwriting it with the freshly rendered prompt — so after the
resolve step `messages[0]` does not hold the freshly rendered system
prompt. -/
theorem C2_counterexample :
    ((cloudSetSystem (some "Hello \x7buser\x7d, today is \x7btoday\x7d") "Ann"
        "2026-02-03" demoChat3).messages.head?.map Message.content) ≠
      some (pyFormat "Hello \x7buser\x7d, today is \x7btoday\x7d" "Ann" "2026-02-03") := by
  decide

/-- C2 (amended): on every turn with a configured start template, the
Twilio handler overwrites `messages[0]` in place with the system prompt
freshly rendered from the sender name and current date, leaving the
transcript length and the remaining messages unchanged; the Cloud
handler instead stores the freshly rendered prompt only in the
`start_system_message` attribute — an existing system message at index
0 is left unchanged, and a system message holding the rendered prompt
is inserted at index 0 (growing the transcript by one) only when index
0 is missing or not system-role. -/
theorem C2_theorem :
    (∀ (t u d : String) (c : Chat), c.messages ≠ [] →
      (twilioSetSystem (some t) u d c).messages.head? =
          some ⟨"system", pyFormat t u d⟩ ∧
        (twilioSetSystem (some t) u d c).messages.length = c.messages.length ∧
        (twilioSetSystem (some t) u d c).messages.tail = c.messages.tail ∧
        (twilioSetSystem (some t) u d c).start_system_message =
          some (pyFormat t u d)) ∧
    (∀ (t u d : String) (c : Chat),
      (c.messages.head?.map Message.role) = some "system" →
      (cloudSetSystem (some t) u d c).messages = c.messages ∧
        (cloudSetSystem (some t) u d c).start_system_message =
          some (pyFormat t u d)) ∧
    (∀ (t u d : String) (c : Chat),
      (c.messages.head?.map Message.role) ≠ some "system" →
      (cloudSetSystem (some t) u d c).messages =
        ⟨"system", pyFormat t u d⟩ :: c.messages) := by
  refine ⟨?_, ?_, ?_⟩
  · intro t u d c hne
    match hm : c.messages with
    | [] => exact absurd hm hne
    | x :: xs => simp [twilioSetSystem, hm]
  · intro t u d c hsys
    match hm : c.messages with
    | [] => simp [hm] at hsys
    | x :: xs =>
      rw [hm] at hsys
      simp at hsys
      simp [cloudSetSystem, hm, hsys]
  · intro t u d c hsys
    match hm : c.messages with
    | [] => simp [cloudSetSystem, hm]
    | x :: xs =>
      rw [hm] at hsys
      simp at hsys
      simp [cloudSetSystem, hm, hsys]

/-- C2, witness: the amended theorem applied to a concrete returning
conversation in the Twilio handler. -/
theorem C2_witness :
    (twilioSetSystem (some "Hello \x7buser\x7d") "Ann" "2026-02-03" demoChat3).messages.head? =
      some ⟨"system", pyFormat "Hello \x7buser\x7d" "Ann" "2026-02-03"⟩ :=
  (C2_theorem.1 "Hello \x7buser\x7d" "Ann" "2026-02-03" demoChat3 (by decide)).1

/-- C4: in the Twilio handler, a turn whose normalized text is `None`,
empty or blank sends the fixed "didn\x27t understand" notice and stops with
no user or assistant append and no save; a turn whose text matches the
conversation-ending intent sends the goodbye message rendered with the
sender name substituted and likewise stops without mutating the
transcript further.  (The system-prompt refresh of the resolve step has
already run; it preserves the transcript length.) -/
theorem C4_theorem (tpl : Option String) (today : String) (c0 : Chat)
    (convEnds : String → Bool) (completion : List Message → String)
    (imgExtract : String → String × Option String) (sendFails : Nat → Bool) :
    (∀ msg, check_message_empty msg = true →
      twilioTurn tpl today c0 msg convEnds completion imgExtract sendFails =
        (twilioSetSystem tpl c0.sender.name today c0,
         [Event.sentText c0.sender.phone_number didntUnderstand])) ∧
    (∀ m, check_message_empty (some m) = false → convEnds m = true →
      twilioTurn tpl today c0 (some m) convEnds completion imgExtract sendFails =
        (twilioSetSystem tpl c0.sender.name today c0,
         [Event.sentText c0.sender.phone_number
            (pyFormatUser c0.goodbye_message c0.sender.name)])) ∧
    (twilioSetSystem tpl c0.sender.name today c0).messages.length =
      c0.messages.length := by
  refine ⟨?_, ?_, twilioSetSystem_length tpl c0.sender.name today c0⟩
  · intro msg h
    simp [twilioTurn, message_empty_or_goodbye, h]
  · intro m h1 h2
    simp [twilioTurn, message_empty_or_goodbye, h1, h2]

/-- C4, witness: a blank message on a concrete conversation. -/
theorem C4_witness :
    twilioTurn Option.none "2026-02-03" demoChat (some " ") (fun _ => false)
      (fun _ => "r") (fun r => (r, Option.none)) (fun _ => false) =
      (demoChat, [Event.sentText "+15551234567" didntUnderstand]) := by
  have h := (C4_theorem Option.none "2026-02-03" demoChat (fun _ => false)
    (fun _ => "r") (fun r => (r, Option.none)) (fun _ => false)).1 (some " ") (by decide)
  simpa [twilioSetSystem, demoChat] using h

/-! ### Helper lemmas on event traces -/

/-- Every event of the Twilio relay loop is an outbound text send. -/
lemma twilioSendEvents_countP (p : Event → Bool)
    (hp : ∀ a b, p (Event.sentText a b) = false) (phone : String)
    (fails : Nat → Bool) :
    ∀ (chunks : List String) (k0 : Nat),
      (twilioSendEvents phone fails chunks k0).countP p = 0 := by
  intro chunks
  induction chunks with
  | nil => intro k0; rfl
  | cons c cs ih =>
    intro k0
    rw [twilioSendEvents, List.countP_cons]
    rcases h : fails k0 <;> simp [h, hp, ih]

/-- Every event produced by the Cloud relay loop, whether it completes
or aborts, is an outbound text send. -/
lemma sendAllCloud_countP (p : Event → Bool)
    (hp : ∀ a b, p (Event.sentText a b) = false) (phone : String)
    (fails : Nat → Bool) :
    ∀ (l : List String) (k0 : Nat),
      (∀ evs, sendAllCloud phone fails l k0 = Except.ok evs → evs.countP p = 0) ∧
      (∀ evs, sendAllCloud phone fails l k0 = Except.error evs → evs.countP p = 0) := by
  intro l
  induction l with
  | nil =>
    intro k0
    constructor
    · intro evs h
      rw [sendAllCloud] at h
      cases h
      rfl
    · intro evs h
      rw [sendAllCloud] at h
      cases h
  | cons c cs ih =>
    intro k0
    constructor
    · intro evs h
      rw [sendAllCloud] at h
      rcases hf : fails k0 with _ | _ <;> rw [hf] at h
      · rcases hin : sendAllCloud phone fails cs (k0 + 1) with evs1 | evs1 <;>
          rw [hin] at h <;> simp at h
        cases h
        rw [List.countP_cons]
        simp [hp, (ih (k0 + 1)).1 evs1 hin]
      · simp at h
    · intro evs h
      rw [sendAllCloud] at h
      rcases hf : fails k0 with _ | _ <;> rw [hf] at h
      · rcases hin : sendAllCloud phone fails cs (k0 + 1) with evs1 | evs1 <;>
          rw [hin] at h <;> simp at h
        cases h
        rw [List.countP_cons]
        simp [hp, (ih (k0 + 1)).2 evs1 hin]
      · simp at h
        cases h
        rfl

/-- An active Twilio turn reduces to the active core on the refreshed
conversation. -/
lemma twilioTurn_active_eq (tpl : Option String) (today : String) (c0 : Chat)
    (m : String) (convEnds : String → Bool) (comp : List Message → String)
    (ext : String → String × Option String) (sf : Nat → Bool)
    (h1 : check_message_empty (some m) = false) (h2 : convEnds m = false) :
    twilioTurn tpl today c0 (some m) convEnds comp ext sf =
      twilioActiveCore comp ext sf (twilioSetSystem tpl c0.sender.name today c0) m := by
  simp [twilioTurn, message_empty_or_goodbye, h1, h2]

/-- Event trace of the active core: optional language bootstrap first,
then the user append, then the relay, assistant append and tail. -/
lemma activeCore_shape (comp : List Message → String)
    (ext : String → String × Option String) (sf : Nat → Bool) (c1 : Chat) (m : String) :
    ∃ rest, (twilioActiveCore comp ext sf c1 m).2 =
      (if c1.messages.length = 1 then [Event.ensuredLanguage m] else []) ++
        Event.appended ⟨"user", m⟩ :: rest ∧ rest.countP isLangEvent = 0 := by
  rcases hpr : (ext (pyStrip (comp (c1.messages ++ [⟨"user", m⟩])))).2 with _ | p
  · refine ⟨twilioSendEvents c1.sender.phone_number sf
        (replyChunks (ext (pyStrip (comp (c1.messages ++ [⟨"user", m⟩])))).1) 0 ++
        Event.appended ⟨"assistant",
          (ext (pyStrip (comp (c1.messages ++ [⟨"user", m⟩])))).1⟩ :: [Event.saved],
        ?_, ?_⟩
    · simp [twilioActiveCore, hpr]
    · simp [List.countP_append, List.countP_cons, isLangEvent,
        twilioSendEvents_countP isLangEvent (fun _ _ => rfl)]
  · refine ⟨twilioSendEvents c1.sender.phone_number sf
        (replyChunks (ext (pyStrip (comp (c1.messages ++ [⟨"user", m⟩])))).1) 0 ++
        Event.appended ⟨"assistant",
          (ext (pyStrip (comp (c1.messages ++ [⟨"user", m⟩])))).1⟩ ::
        [Event.appended ⟨"system", imgDirective p⟩, Event.invokedImageGen p, Event.saved],
        ?_, ?_⟩
    · simp [twilioActiveCore, hpr]
    · simp [List.countP_append, List.countP_cons, isLangEvent, isImgInvoke,
        twilioSendEvents_countP isLangEvent (fun _ _ => rfl)]

/-- Language-bootstrap count of an active core run: one exactly when the
transcript holds a single message. -/
lemma activeCore_countP_lang (comp : List Message → String)
    (ext : String → String × Option String) (sf : Nat → Bool) (c1 : Chat) (m : String) :
    ((twilioActiveCore comp ext sf c1 m).2).countP isLangEvent =
      if c1.messages.length = 1 then 1 else 0 := by
  obtain ⟨rest, he, hc⟩ := activeCore_shape comp ext sf c1 m
  rw [he, List.countP_append, List.countP_cons, hc]
  by_cases hl : c1.messages.length = 1 <;> simp [hl, isLangEvent]

/-- An active core run grows the transcript by at least the user and
assistant messages. -/
lemma activeCore_len_ge (comp : List Message → String)
    (ext : String → String × Option String) (sf : Nat → Bool) (c1 : Chat) (m : String) :
    c1.messages.length + 2 ≤ (twilioActiveCore comp ext sf c1 m).1.messages.length := by
  rcases hpr : (ext (pyStrip (comp (c1.messages ++ [⟨"user", m⟩])))).2 with _ | p <;>
    simp [twilioActiveCore, hpr]

/-- A turn that fails the termination check bootstraps no language and
leaves the transcript length unchanged. -/
lemma twilioTurn_not_active (tpl : Option String) (today : String) (c0 : Chat)
    (msg : Option String) (convEnds : String → Bool) (comp : List Message → String)
    (ext : String → String × Option String) (sf : Nat → Bool)
    (h : activeMsg convEnds msg = false) :
    ((twilioTurn tpl today c0 msg convEnds comp ext sf).2).countP isLangEvent = 0 ∧
    (twilioTurn tpl today c0 msg convEnds comp ext sf).1.messages.length =
      c0.messages.length := by
  cases msg with
  | none =>
    constructor <;>
      simp [twilioTurn, message_empty_or_goodbye, check_message_empty, isLangEvent]
  | some m =>
    rcases hpe : (pyStrip m == "") with _ | _
    · rcases hc : convEnds m with _ | _
      · simp [activeMsg, hpe, hc] at h
      · have he : check_message_empty (some m) = false := hpe
        constructor <;>
          simp [twilioTurn, message_empty_or_goodbye, he, hc, isLangEvent]
    · have he : check_message_empty (some m) = true := hpe
      constructor <;>
        simp [twilioTurn, message_empty_or_goodbye, he, isLangEvent]

/-- A turn that passes the termination check bootstraps the language
exactly when the transcript holds one message, and appends at least the
user and assistant turns. -/
lemma twilioTurn_active_facts (tpl : Option String) (today : String) (c0 : Chat)
    (m : String) (convEnds : String → Bool) (comp : List Message → String)
    (ext : String → String × Option String) (sf : Nat → Bool)
    (h1 : check_message_empty (some m) = false) (h2 : convEnds m = false) :
    ((twilioTurn tpl today c0 (some m) convEnds comp ext sf).2).countP isLangEvent =
      (if c0.messages.length = 1 then 1 else 0) ∧
    c0.messages.length + 2 ≤
      (twilioTurn tpl today c0 (some m) convEnds comp ext sf).1.messages.length := by
  rw [twilioTurn_active_eq tpl today c0 m convEnds comp ext sf h1 h2]
  constructor
  · rw [activeCore_countP_lang]
    rw [twilioSetSystem_length]
  · have h := activeCore_len_ge comp ext sf (twilioSetSystem tpl c0.sender.name today c0) m
    rw [twilioSetSystem_length] at h
    exact h

/-- Once a transcript has grown past the seed message, no later turn
bootstraps the language. -/
lemma runTwilio_no_lang (tpl : Option String) :
    ∀ (is : List TurnIn) (c : Chat), 2 ≤ c.messages.length →
      ((runTwilio tpl c is).2).map (fun evs => evs.countP isLangEvent) =
        is.map (fun _ => 0) := by
  intro is
  induction is with
  | nil => intro c _; rfl
  | cons i is ih =>
    intro c hc
    rw [runTwilio]
    rcases hact : isActiveIn i with _ | _
    · obtain ⟨h0, hlen⟩ := twilioTurn_not_active tpl i.today c i.msg i.convEnds
        i.completion i.imgExtract i.sendFails hact
      simp only [List.map_cons, h0]
      rw [ih _ (by rw [hlen]; exact hc)]
    · rw [isActiveIn] at hact
      rcases hm : i.msg with _ | m
      · rw [hm, activeMsg] at hact
        simp at hact
      · rw [hm, activeMsg] at hact
        have h1 : check_message_empty (some m) = false := by
          rcases hpe : (pyStrip m == "") with _ | _
          · exact hpe
          · rw [hpe] at hact
            simp at hact
        have h2 : i.convEnds m = false := by
          rcases hce : i.convEnds m with _ | _
          · rfl
          · rw [hce] at hact
            simp at hact
        obtain ⟨hcnt, hlen⟩ := twilioTurn_active_facts tpl i.today c m i.convEnds
          i.completion i.imgExtract i.sendFails h1 h2
        dsimp only
        rw [List.map_cons, hcnt]
        have hge : 2 ≤ (twilioTurn tpl i.today c (some m) i.convEnds i.completion
            i.imgExtract i.sendFails).1.messages.length := by omega
        rw [ih _ hge]
        have hne : ¬ (c.messages.length = 1) := by omega
        rw [if_neg hne]
        rfl

/-- From a freshly seeded conversation, the language bootstrap happens
exactly once, on the first turn that passes the termination check. -/
lemma runTwilio_lang_marks (tpl : Option String) :
    ∀ (is : List TurnIn) (c : Chat), c.messages.length = 1 →
      ((runTwilio tpl c is).2).map (fun evs => evs.countP isLangEvent) =
        firstActiveMark is := by
  intro is
  induction is with
  | nil => intro c _; rfl
  | cons i is ih =>
    intro c hc
    rw [runTwilio, firstActiveMark]
    rcases hact : isActiveIn i with _ | _
    · obtain ⟨h0, hlen⟩ := twilioTurn_not_active tpl i.today c i.msg i.convEnds
        i.completion i.imgExtract i.sendFails hact
      simp only [List.map_cons, h0]
      rw [ih _ (by rw [hlen]; exact hc)]
      simp
    · rw [isActiveIn] at hact
      rcases hm : i.msg with _ | m
      · rw [hm, activeMsg] at hact
        simp at hact
      · rw [hm, activeMsg] at hact
        have h1 : check_message_empty (some m) = false := by
          rcases hpe : (pyStrip m == "") with _ | _
          · exact hpe
          · rw [hpe] at hact
            simp at hact
        have h2 : i.convEnds m = false := by
          rcases hce : i.convEnds m with _ | _
          · rfl
          · rw [hce] at hact
            simp at hact
        obtain ⟨hcnt, hlen⟩ := twilioTurn_active_facts tpl i.today c m i.convEnds
          i.completion i.imgExtract i.sendFails h1 h2
        dsimp only
        rw [List.map_cons, hcnt, if_pos hc]
        have hge : 2 ≤ (twilioTurn tpl i.today c (some m) i.convEnds i.completion
            i.imgExtract i.sendFails).1.messages.length := by omega
        rw [runTwilio_no_lang tpl is _ hge]
        simp


/-- Every event payload of the Cloud image branch consists of an
image-generation invocation plus sends. -/
lemma cloudImgBlock_countP (P : Event → Bool)
    (h1 : ∀ q, P (Event.invokedImageGen q) = false)
    (h2 : ∀ a b, P (Event.sentText a b) = false)
    (h3 : ∀ a b c, P (Event.sentImage a b c) = false)
    (o : CloudOracles) (dest p : String) :
    ∀ evs, (cloudImgBlock o dest p = Except.ok evs ∨
            cloudImgBlock o dest p = Except.error evs) → evs.countP P = 0 := by
  intro evs h
  rcases hg : o.imgGen with e | u
  · rcases ha : o.apologySendFails with _ | _ <;>
      rcases h with h | h <;>
        simp [cloudImgBlock, hg, ha] at h <;>
          simp [← h, List.countP_cons, h1, h2, h3]
  · rcases u with _ | url
    · rcases h with h | h <;>
        simp [cloudImgBlock, hg] at h <;>
          simp [← h, List.countP_cons, h1, h2, h3]
    · rcases hif : o.imgSendFails with _ | _ <;>
        rcases ha : o.apologySendFails with _ | _ <;>
          rcases h with h | h <;>
            simp [cloudImgBlock, hg, hif, ha] at h <;>
              simp [← h, List.countP_cons, h1, h2, h3]

/-- Event trace of a Cloud turn: mark-as-read, optional language
bootstrap, the user append, then the relay and its continuation. -/
lemma cloudHandle_shape (tpl : Option String) (today : String) (o : CloudOracles)
    (md : MessageData) (chat0 : Chat) (hmr : o.markReadFails = false) :
    ∃ rest, (cloudHandleMessage tpl today o md chat0).2.2 =
      Event.markedRead (pyToString md.message_id) ::
        ((if (cloudSetSystem tpl (pyToString md.name) today chat0).messages.length = 1
          then [Event.ensuredLanguage (pyToString md.text)] else []) ++
          Event.appended ⟨"user", pyToString md.text⟩ :: rest) ∧
      rest.countP isLangEvent = 0 := by
  rcases hs : sendAllCloud (pyToString md.from_) o.sendFails
      (replyChunks (o.imgExtract (pyStrip (o.completion
        ((cloudSetSystem tpl (pyToString md.name) today chat0).messages ++
          [⟨"user", pyToString md.text⟩])))).1) 0 with evs | evs
  · exact ⟨evs, by simp [cloudHandleMessage, hmr, hs],
      (sendAllCloud_countP isLangEvent (fun _ _ => rfl) _ _ _ _).2 evs hs⟩
  · rcases hpr : (o.imgExtract (pyStrip (o.completion
        ((cloudSetSystem tpl (pyToString md.name) today chat0).messages ++
          [⟨"user", pyToString md.text⟩])))).2 with _ | p
    · refine ⟨evs ++ [Event.appended ⟨"assistant",
          (o.imgExtract (pyStrip (o.completion
            ((cloudSetSystem tpl (pyToString md.name) today chat0).messages ++
              [⟨"user", pyToString md.text⟩])))).1⟩],
        by simp [cloudHandleMessage, hmr, hs, hpr], ?_⟩
      rw [List.countP_append]
      simp [isLangEvent, (sendAllCloud_countP isLangEvent (fun _ _ => rfl) _ _ _ _).1 evs hs]
    · rcases hib : cloudImgBlock o (pyToString md.from_) p with ie | ie
      · refine ⟨evs ++ Event.appended ⟨"assistant",
            (o.imgExtract (pyStrip (o.completion
              ((cloudSetSystem tpl (pyToString md.name) today chat0).messages ++
                [⟨"user", pyToString md.text⟩])))).1⟩ :: ie,
          by simp [cloudHandleMessage, hmr, hs, hpr, hib], ?_⟩
        rw [List.countP_append, List.countP_cons]
        simp [isLangEvent,
          (sendAllCloud_countP isLangEvent (fun _ _ => rfl) _ _ _ _).1 evs hs,
          cloudImgBlock_countP isLangEvent (fun _ => rfl) (fun _ _ => rfl)
            (fun _ _ _ => rfl) o (pyToString md.from_) p ie (Or.inr hib)]
      · refine ⟨evs ++ Event.appended ⟨"assistant",
            (o.imgExtract (pyStrip (o.completion
              ((cloudSetSystem tpl (pyToString md.name) today chat0).messages ++
                [⟨"user", pyToString md.text⟩])))).1⟩ :: ie,
          by simp [cloudHandleMessage, hmr, hs, hpr, hib], ?_⟩
        rw [List.countP_append, List.countP_cons]
        simp [isLangEvent,
          (sendAllCloud_countP isLangEvent (fun _ _ => rfl) _ _ _ _).1 evs hs,
          cloudImgBlock_countP isLangEvent (fun _ => rfl) (fun _ _ => rfl)
            (fun _ _ _ => rfl) o (pyToString md.from_) p ie (Or.inl hib)]

/-- C3: in both handlers, on a turn that passes the termination check,
the language bootstrap (`ensure_user_language`) is invoked if and only
if the transcript holds exactly one message at that point, and the
invocation happens strictly before the user message is appended;
consequently, over any sequence of Twilio turns starting from a freshly
seeded conversation, the bootstrap runs exactly once — in the first
turn that passes the termination check — and never again. -/
theorem C3_theorem :
    (∀ (tpl : Option String) (today : String) (c0 : Chat) (m : String)
        (convEnds : String → Bool) (comp : List Message → String)
        (ext : String → String × Option String) (sf : Nat → Bool),
      check_message_empty (some m) = false → convEnds m = false →
      ∃ rest,
        (twilioTurn tpl today c0 (some m) convEnds comp ext sf).2 =
          (if c0.messages.length = 1 then [Event.ensuredLanguage m] else []) ++
            Event.appended ⟨"user", m⟩ :: rest ∧
        rest.countP isLangEvent = 0) ∧
    (∀ (tpl : Option String) (today : String) (o : CloudOracles) (md : MessageData)
        (chat0 : Chat), o.markReadFails = false →
      ∃ rest,
        (cloudHandleMessage tpl today o md chat0).2.2 =
          Event.markedRead (pyToString md.message_id) ::
            ((if (cloudSetSystem tpl (pyToString md.name) today chat0).messages.length = 1
              then [Event.ensuredLanguage (pyToString md.text)] else []) ++
              Event.appended ⟨"user", pyToString md.text⟩ :: rest) ∧
        rest.countP isLangEvent = 0) ∧
    (∀ (tpl : Option String) (is : List TurnIn) (c : Chat), c.messages.length = 1 →
      ((runTwilio tpl c is).2).map (fun evs => evs.countP isLangEvent) =
        firstActiveMark is) := by
  refine ⟨?_, ?_, ?_⟩
  · intro tpl today c0 m convEnds comp ext sf h1 h2
    rw [twilioTurn_active_eq tpl today c0 m convEnds comp ext sf h1 h2]
    obtain ⟨rest, he, hc⟩ :=
      activeCore_shape comp ext sf (twilioSetSystem tpl c0.sender.name today c0) m
    rw [twilioSetSystem_length] at he
    exact ⟨rest, he, hc⟩
  · intro tpl today o md chat0 hmr
    exact cloudHandle_shape tpl today o md chat0 hmr
  · intro tpl is c hc
    exact runTwilio_lang_marks tpl is c hc

/-- C3, witness: a single active turn on a freshly seeded conversation
bootstraps the language exactly once. -/
theorem C3_witness :
    ((runTwilio Option.none demoChat [demoTurnIn]).2).map
        (fun evs => evs.countP isLangEvent) =
      firstActiveMark [demoTurnIn] :=
  C3_theorem.2.2 Option.none [demoTurnIn] demoChat (by decide)

/-- Outbound text sends satisfy no append/bootstrap predicate. -/
lemma countP_sentText_map (P : Event → Bool)
    (hP : ∀ a b, P (Event.sentText a b) = false) (phone : String) (l : List String) :
    (l.map (fun c => Event.sentText phone c)).countP P = 0 := by
  induction l with
  | nil => rfl
  | cons c cs ih => simp [List.countP_cons, hP, ih]

/-- When every send succeeds the Cloud relay loop completes and relays
the chunks in order. -/
lemma sendAllCloud_ok (phone : String) (fails : Nat → Bool)
    (hok : ∀ k, fails k = false) :
    ∀ (l : List String) (k0 : Nat),
      sendAllCloud phone fails l k0 =
        Except.ok (l.map (fun c => Event.sentText phone c)) := by
  intro l
  induction l with
  | nil => intro k0; rfl
  | cons c cs ih =>
    intro k0
    rw [sendAllCloud, hok k0, ih (k0 + 1)]
    rfl



/-- C5, counterexample: in the Cloud handler a turn that reaches the
reply relay but whose chunk send raises appends no assistant message at
all — the turn aborts with an error response after the user message was
already appended — contradicting the claim that every turn reaching the
relay appends exactly one assistant message even when a send failed. -/
theorem C5_counterexample :
    (cloudHandleMessage Option.none "2026-02-03" demoOraclesFail demoMd demoChat).1 =
      ("error", 500) ∧
    ((cloudHandleMessage Option.none "2026-02-03" demoOraclesFail demoMd
        demoChat).2.2).countP isAssistAppend = 0 ∧
    Event.appended ⟨"user", "hi"⟩ ∈
      (cloudHandleMessage Option.none "2026-02-03" demoOraclesFail demoMd
        demoChat).2.2 := by
  decide

/-- C5 (amended): in the Twilio handler every turn that reaches the
reply relay appends exactly one assistant message, after all chunk
sends, whose content is the full cleaned (directive-stripped,
whitespace-trimmed) reply, regardless of which chunk sends failed and
were replaced by the apology; in the Cloud handler the same holds on
every turn whose chunk sends all succeed, while a raising send aborts
the turn before the assistant append. -/
theorem C5_theorem :
    (∀ (tpl : Option String) (today : String) (c0 : Chat) (m : String)
        (convEnds : String → Bool) (comp : List Message → String)
        (ext : String → String × Option String) (sf : Nat → Bool),
      check_message_empty (some m) = false → convEnds m = false →
      ∃ tail,
        (twilioTurn tpl today c0 (some m) convEnds comp ext sf).2 =
          (if c0.messages.length = 1 then [Event.ensuredLanguage m] else []) ++
            Event.appended ⟨"user", m⟩ ::
            twilioSendEvents c0.sender.phone_number sf
              (replyChunks (ext (pyStrip (comp
                ((twilioSetSystem tpl c0.sender.name today c0).messages ++
                  [⟨"user", m⟩])))).1) 0 ++
            Event.appended ⟨"assistant",
              (ext (pyStrip (comp
                ((twilioSetSystem tpl c0.sender.name today c0).messages ++
                  [⟨"user", m⟩])))).1⟩ :: tail ∧
        tail.countP isAssistAppend = 0 ∧ tail.countP isSendEvent = 0 ∧
        ((twilioTurn tpl today c0 (some m) convEnds comp ext sf).2).countP
          isAssistAppend = 1) ∧
    (∀ (tpl : Option String) (today : String) (o : CloudOracles) (md : MessageData)
        (chat0 : Chat), o.markReadFails = false → (∀ k, o.sendFails k = false) →
      ∃ tail,
        (cloudHandleMessage tpl today o md chat0).2.2 =
          Event.markedRead (pyToString md.message_id) ::
            ((if (cloudSetSystem tpl (pyToString md.name) today chat0).messages.length = 1
              then [Event.ensuredLanguage (pyToString md.text)] else []) ++
              Event.appended ⟨"user", pyToString md.text⟩ ::
              (replyChunks (o.imgExtract (pyStrip (o.completion
                ((cloudSetSystem tpl (pyToString md.name) today chat0).messages ++
                  [⟨"user", pyToString md.text⟩])))).1).map
                (fun c => Event.sentText (pyToString md.from_) c) ++
              Event.appended ⟨"assistant",
                (o.imgExtract (pyStrip (o.completion
                  ((cloudSetSystem tpl (pyToString md.name) today chat0).messages ++
                    [⟨"user", pyToString md.text⟩])))).1⟩ :: tail) ∧
        tail.countP isAssistAppend = 0 ∧
        ((cloudHandleMessage tpl today o md chat0).2.2).countP isAssistAppend = 1) := by
  constructor
  · intro tpl today c0 m convEnds comp ext sf h1 h2
    rw [twilioTurn_active_eq tpl today c0 m convEnds comp ext sf h1 h2]
    rcases hpr : (ext (pyStrip (comp
        ((twilioSetSystem tpl c0.sender.name today c0).messages ++
          [⟨"user", m⟩])))).2 with _ | p
    · refine ⟨[Event.saved], ?_, by simp [isAssistAppend], by simp [isSendEvent], ?_⟩
      · simp [twilioActiveCore, hpr, twilioSetSystem_length]
      · simp [twilioActiveCore, hpr, List.countP_append, List.countP_cons,
          isAssistAppend,
          twilioSendEvents_countP isAssistAppend (fun _ _ => rfl)]
    · refine ⟨[Event.appended ⟨"system", imgDirective p⟩, Event.invokedImageGen p,
          Event.saved], ?_, by simp [isAssistAppend, imgDirective],
          by simp [isSendEvent], ?_⟩
      · simp [twilioActiveCore, hpr, twilioSetSystem_length]
      · simp [twilioActiveCore, hpr, List.countP_append, List.countP_cons,
          isAssistAppend, imgDirective,
          twilioSendEvents_countP isAssistAppend (fun _ _ => rfl)]
  · intro tpl today o md chat0 hmr hok
    have hs := sendAllCloud_ok (pyToString md.from_) o.sendFails hok
    rcases hpr : (o.imgExtract (pyStrip (o.completion
        ((cloudSetSystem tpl (pyToString md.name) today chat0).messages ++
          [⟨"user", pyToString md.text⟩])))).2 with _ | p
    · refine ⟨[], ?_, rfl, ?_⟩
      · simp [cloudHandleMessage, hmr, hs, hpr]
      · simp [cloudHandleMessage, hmr, hs, hpr, List.countP_append, List.countP_cons,
          isAssistAppend, countP_sentText_map isAssistAppend (fun _ _ => rfl),
          apply_ite (List.countP isAssistAppend)]
    · rcases hib : cloudImgBlock o (pyToString md.from_) p with ie | ie
      · refine ⟨ie, ?_,
          cloudImgBlock_countP isAssistAppend (fun _ => rfl) (fun _ _ => rfl)
            (fun _ _ _ => rfl) o (pyToString md.from_) p ie (Or.inr hib), ?_⟩
        · simp [cloudHandleMessage, hmr, hs, hpr, hib]
        · have hcnt := cloudImgBlock_countP isAssistAppend (fun _ => rfl)
            (fun _ _ => rfl) (fun _ _ _ => rfl) o (pyToString md.from_) p ie (Or.inr hib)
          simp [cloudHandleMessage, hmr, hs, hpr, hib, List.countP_append,
            List.countP_cons, isAssistAppend, hcnt,
            countP_sentText_map isAssistAppend (fun _ _ => rfl),
            apply_ite (List.countP isAssistAppend)]
      · refine ⟨ie, ?_,
          cloudImgBlock_countP isAssistAppend (fun _ => rfl) (fun _ _ => rfl)
            (fun _ _ _ => rfl) o (pyToString md.from_) p ie (Or.inl hib), ?_⟩
        · simp [cloudHandleMessage, hmr, hs, hpr, hib]
        · have hcnt := cloudImgBlock_countP isAssistAppend (fun _ => rfl)
            (fun _ _ => rfl) (fun _ _ _ => rfl) o (pyToString md.from_) p ie (Or.inl hib)
          simp [cloudHandleMessage, hmr, hs, hpr, hib, List.countP_append,
            List.countP_cons, isAssistAppend, hcnt,
            countP_sentText_map isAssistAppend (fun _ _ => rfl),
            apply_ite (List.countP isAssistAppend)]

/-- C5, witness: a concrete active Twilio turn records exactly one
assistant message. -/
theorem C5_witness :
    ((twilioTurn Option.none "2026-02-03" demoChat (some "hola") (fun _ => false)
      (fun _ => "hi there") (fun r => (r, Option.none)) (fun _ => false)).2).countP
        isAssistAppend = 1 := by
  obtain ⟨tail, _, _, _, hcount⟩ := C5_theorem.1 Option.none "2026-02-03" demoChat
    "hola" (fun _ => false) (fun _ => "hi there") (fun r => (r, Option.none))
    (fun _ => false) (by decide) rfl
  exact hcount


/-- The relay never produces fewer or more sends than chunks. -/
lemma twilioSendEvents_length (phone : String) (sf : Nat → Bool) :
    ∀ (chunks : List String) (k0 : Nat),
      (twilioSendEvents phone sf chunks k0).length = chunks.length := by
  intro chunks
  induction chunks with
  | nil => intro k0; rfl
  | cons c cs ih => intro k0; simp [twilioSendEvents, ih]

/-- The `j`-th relayed message is the `j`-th chunk, or the fixed apology
in its place when that send failed. -/
lemma twilioSendEvents_get (phone : String) (sf : Nat → Bool) :
    ∀ (chunks : List String) (k0 j : Nat) (c : String), chunks[j]? = some c →
      (twilioSendEvents phone sf chunks k0)[j]? =
        some (Event.sentText phone (if sf (k0 + j) then didntUnderstand else c)) := by
  intro chunks
  induction chunks with
  | nil => intro k0 j c h; simp at h
  | cons x xs ih =>
    intro k0 j c h
    cases j with
    | zero =>
      simp at h
      subst h
      simp [twilioSendEvents]
    | succ j =>
      simp at h
      have := ih (k0 + 1) j c h
      have harith : k0 + 1 + j = k0 + (j + 1) := by omega
      rw [harith] at this
      simpa [twilioSendEvents] using this

/-- The chunker never produces an empty sequence of messages. -/
lemma replyChunksL_ne_nil (r : List Char) : replyChunksL r ≠ [] := by
  unfold replyChunksL
  split
  · intro hcontra
    rename_i h
    rw [List.map_eq_nil_iff, List.range_eq_nil] at hcontra
    unfold numChunks at hcontra
    omega
  · simp

lemma replyChunks_ne_nil (s : String) : replyChunks s ≠ [] := by
  simp [replyChunks, replyChunksL_ne_nil]

/-- A first-chunk send failure aborts the Cloud relay immediately. -/
lemma sendAllCloud_fail0 (phone : String) (fails : Nat → Bool)
    (h : fails 0 = true) (l : List String) (hne : l ≠ []) :
    sendAllCloud phone fails l 0 = Except.error [] := by
  cases l with
  | nil => exact absurd rfl hne
  | cons c cs => simp [sendAllCloud, h]

/-- C6, counterexample: in the Cloud transport a reply-send failure is
re-raised by `send_message` and escapes to the handler's outer `except`:
the caller receives an error response, no apology is delivered in place
of the failed chunk (no text is sent at all), and the turn does not
continue — nothing is persisted. -/
theorem C6_counterexample :
    (cloudHandleMessage Option.none "2026-02-03" demoOraclesFail demoMd demoChat).1 =
      ("error", 500) ∧
    ((cloudHandleMessage Option.none "2026-02-03" demoOraclesFail demoMd
        demoChat).2.2).countP isSendEvent = 0 ∧
    ((cloudHandleMessage Option.none "2026-02-03" demoOraclesFail demoMd
        demoChat).2.2).countP isSavedEvent = 0 := by
  decide

/-- C6 (amended): in the Twilio transport each failed chunk send is
replaced, in place, by the fixed apology text (the `on_failure`
argument), the failure is not propagated, and the turn continues to the
assistant append and the save; in the Cloud transport a send failure
propagates out of `send_message`, the handler answers with an error
status, sends no apology, and the turn stops before the assistant
append with nothing persisted. -/
theorem C6_theorem :
    (∀ (phone : String) (sf : Nat → Bool) (chunks : List String) (k0 : Nat),
      (twilioSendEvents phone sf chunks k0).length = chunks.length ∧
      ∀ j c, chunks[j]? = some c →
        (twilioSendEvents phone sf chunks k0)[j]? =
          some (Event.sentText phone (if sf (k0 + j) then didntUnderstand else c))) ∧
    (∀ (tpl : Option String) (today : String) (c0 : Chat) (m : String)
        (convEnds : String → Bool) (comp : List Message → String)
        (ext : String → String × Option String) (sf : Nat → Bool),
      check_message_empty (some m) = false → convEnds m = false →
      ((twilioTurn tpl today c0 (some m) convEnds comp ext sf).2).countP
          isAssistAppend = 1 ∧
      ((twilioTurn tpl today c0 (some m) convEnds comp ext sf).2).countP
          isSavedEvent = 1) ∧
    (∀ (tpl : Option String) (today : String) (o : CloudOracles) (md : MessageData)
        (chat0 : Chat), o.markReadFails = false → o.sendFails 0 = true →
      (cloudHandleMessage tpl today o md chat0).1 = ("error", 500) ∧
      ((cloudHandleMessage tpl today o md chat0).2.2).countP isSendEvent = 0 ∧
      ((cloudHandleMessage tpl today o md chat0).2.2).countP isAssistAppend = 0 ∧
      ((cloudHandleMessage tpl today o md chat0).2.2).countP isSavedEvent = 0) := by
  refine ⟨?_, ?_, ?_⟩
  · intro phone sf chunks k0
    exact ⟨twilioSendEvents_length phone sf chunks k0,
      fun j c h => twilioSendEvents_get phone sf chunks k0 j c h⟩
  · intro tpl today c0 m convEnds comp ext sf h1 h2
    rw [twilioTurn_active_eq tpl today c0 m convEnds comp ext sf h1 h2]
    rcases hpr : (ext (pyStrip (comp
        ((twilioSetSystem tpl c0.sender.name today c0).messages ++
          [⟨"user", m⟩])))).2 with _ | p <;>
      constructor <;>
        simp [twilioActiveCore, hpr, List.countP_append, List.countP_cons,
          isAssistAppend, isSavedEvent, imgDirective,
          twilioSendEvents_countP isAssistAppend (fun _ _ => rfl),
          twilioSendEvents_countP isSavedEvent (fun _ _ => rfl),
          apply_ite (List.countP isAssistAppend),
          apply_ite (List.countP isSavedEvent)]
  · intro tpl today o md chat0 hmr hf0
    have hs := sendAllCloud_fail0 (pyToString md.from_) o.sendFails hf0
      (replyChunks (o.imgExtract (pyStrip (o.completion
        ((cloudSetSystem tpl (pyToString md.name) today chat0).messages ++
          [⟨"user", pyToString md.text⟩])))).1)
      (replyChunks_ne_nil _)
    refine ⟨?_, ?_, ?_, ?_⟩ <;>
      simp [cloudHandleMessage, hmr, hs, List.countP_append, List.countP_cons,
        isSendEvent, isAssistAppend, isSavedEvent,
        apply_ite (List.countP isSendEvent),
        apply_ite (List.countP isAssistAppend),
        apply_ite (List.countP isSavedEvent)]

/-- C6, witness: a concrete Twilio turn whose only chunk send fails
still appends the assistant message and saves. -/
theorem C6_witness :
    ((twilioTurn Option.none "2026-02-03" demoChat (some "hola") (fun _ => false)
      (fun _ => "hi there") (fun r => (r, Option.none)) (fun _ => true)).2).countP
        isSavedEvent = 1 :=
  (C6_theorem.2.1 Option.none "2026-02-03" demoChat "hola" (fun _ => false)
    (fun _ => "hi there") (fun r => (r, Option.none)) (fun _ => true)
    (by decide) rfl).2



/-- The Cloud image branch honours at most one directive. -/
lemma cloudImgBlock_countP_img (o : CloudOracles) (dest p : String) :
    ∀ evs, (cloudImgBlock o dest p = Except.ok evs ∨
            cloudImgBlock o dest p = Except.error evs) →
      evs.countP isImgInvoke ≤ 1 := by
  intro evs h
  rcases hg : o.imgGen with e | u
  · rcases ha : o.apologySendFails with _ | _ <;>
      rcases h with h | h <;>
        simp [cloudImgBlock, hg, ha] at h <;>
          simp [← h, List.countP_cons, isImgInvoke]
  · rcases u with _ | url
    · rcases h with h | h <;>
        simp [cloudImgBlock, hg] at h <;>
          simp [← h, List.countP_cons, isImgInvoke]
    · rcases hif : o.imgSendFails with _ | _ <;>
        rcases ha : o.apologySendFails with _ | _ <;>
          rcases h with h | h <;>
            simp [cloudImgBlock, hg, hif, ha] at h <;>
              simp [← h, List.countP_cons, isImgInvoke]

/-- C7, counterexample: in the Cloud handler a turn whose reply carries
an image directive invokes the Image Generation Service but appends no
system-role message at all — in particular no `[img:"<prompt>"]` audit
message — contradicting the claim for this transport. -/
theorem C7_counterexample :
    Event.invokedImageGen "sunset" ∈
      (cloudHandleMessage Option.none "2026-02-03" demoOraclesImg demoMd
        demoChat).2.2 ∧
    ((cloudHandleMessage Option.none "2026-02-03" demoOraclesImg demoMd
        demoChat).2.2).countP isSysAppend = 0 := by
  decide

/-- C7 (amended): in the Twilio handler, when the generated reply
carries an image directive, a system-role message whose content is
exactly `[img:"<prompt>"]` is appended directly after the assistant
message and before the Image Generation Service is invoked, and at most
one directive is honoured per turn (in both handlers); the Cloud
handler invokes the service without appending any directive-recording
system message. -/
theorem C7_theorem :
    (∀ (tpl : Option String) (today : String) (c0 : Chat) (m : String)
        (convEnds : String → Bool) (comp : List Message → String)
        (ext : String → String × Option String) (sf : Nat → Bool) (p : String),
      check_message_empty (some m) = false → convEnds m = false →
      (ext (pyStrip (comp ((twilioSetSystem tpl c0.sender.name today c0).messages ++
        [⟨"user", m⟩])))).2 = some p →
      (twilioTurn tpl today c0 (some m) convEnds comp ext sf).2 =
        (if c0.messages.length = 1 then [Event.ensuredLanguage m] else []) ++
          Event.appended ⟨"user", m⟩ ::
          twilioSendEvents c0.sender.phone_number sf
            (replyChunks (ext (pyStrip (comp
              ((twilioSetSystem tpl c0.sender.name today c0).messages ++
                [⟨"user", m⟩])))).1) 0 ++
          [Event.appended ⟨"assistant",
              (ext (pyStrip (comp
                ((twilioSetSystem tpl c0.sender.name today c0).messages ++
                  [⟨"user", m⟩])))).1⟩,
           Event.appended ⟨"system", imgDirective p⟩,
           Event.invokedImageGen p, Event.saved]) ∧
    (∀ (tpl : Option String) (today : String) (c0 : Chat) (msg : Option String)
        (convEnds : String → Bool) (comp : List Message → String)
        (ext : String → String × Option String) (sf : Nat → Bool),
      ((twilioTurn tpl today c0 msg convEnds comp ext sf).2).countP isImgInvoke ≤ 1) ∧
    (∀ (tpl : Option String) (today : String) (o : CloudOracles) (md : MessageData)
        (chat0 : Chat),
      ((cloudHandleMessage tpl today o md chat0).2.2).countP isImgInvoke ≤ 1) := by
  refine ⟨?_, ?_, ?_⟩
  · intro tpl today c0 m convEnds comp ext sf p h1 h2 hp
    rw [twilioTurn_active_eq tpl today c0 m convEnds comp ext sf h1 h2]
    simp [twilioActiveCore, hp, twilioSetSystem_length]
  · intro tpl today c0 msg convEnds comp ext sf
    cases msg with
    | none =>
      simp [twilioTurn, message_empty_or_goodbye, check_message_empty, isImgInvoke]
    | some m =>
      rcases he : check_message_empty (some m) with _ | _
      · rcases hc : convEnds m with _ | _
        · rw [twilioTurn_active_eq tpl today c0 m convEnds comp ext sf he hc]
          rcases hpr : (ext (pyStrip (comp
              ((twilioSetSystem tpl c0.sender.name today c0).messages ++
                [⟨"user", m⟩])))).2 with _ | p <;>
            simp [twilioActiveCore, hpr, List.countP_append, List.countP_cons,
              isImgInvoke, twilioSendEvents_countP isImgInvoke (fun _ _ => rfl),
              apply_ite (List.countP isImgInvoke)]
        · simp [twilioTurn, message_empty_or_goodbye, he, hc, isImgInvoke]
      · simp [twilioTurn, message_empty_or_goodbye, he, isImgInvoke]
  · intro tpl today o md chat0
    rcases hmr : o.markReadFails with _ | _
    · rcases hs : sendAllCloud (pyToString md.from_) o.sendFails
          (replyChunks (o.imgExtract (pyStrip (o.completion
            ((cloudSetSystem tpl (pyToString md.name) today chat0).messages ++
              [⟨"user", pyToString md.text⟩])))).1) 0 with evs | evs
      · have h0 := (sendAllCloud_countP isImgInvoke (fun _ _ => rfl) _ _ _ _).2 evs hs
        simp [cloudHandleMessage, hmr, hs, List.countP_append, List.countP_cons,
          isImgInvoke, h0, apply_ite (List.countP isImgInvoke)]
      · have h0 := (sendAllCloud_countP isImgInvoke (fun _ _ => rfl) _ _ _ _).1 evs hs
        rcases hpr : (o.imgExtract (pyStrip (o.completion
            ((cloudSetSystem tpl (pyToString md.name) today chat0).messages ++
              [⟨"user", pyToString md.text⟩])))).2 with _ | p
        · simp [cloudHandleMessage, hmr, hs, hpr, List.countP_append,
            List.countP_cons, isImgInvoke, h0, apply_ite (List.countP isImgInvoke)]
        · rcases hib : cloudImgBlock o (pyToString md.from_) p with ie | ie
          · have h1 := cloudImgBlock_countP_img o (pyToString md.from_) p ie (Or.inr hib)
            simp [cloudHandleMessage, hmr, hs, hpr, hib, List.countP_append,
              List.countP_cons, isImgInvoke, h0,
              apply_ite (List.countP isImgInvoke)]
            omega
          · have h1 := cloudImgBlock_countP_img o (pyToString md.from_) p ie (Or.inl hib)
            simp [cloudHandleMessage, hmr, hs, hpr, hib, List.countP_append,
              List.countP_cons, isImgInvoke, h0,
              apply_ite (List.countP isImgInvoke)]
            omega
    · simp [cloudHandleMessage, hmr]

/-- C7, witness: a concrete Twilio turn with a directive records the
audit message after the assistant message and before the image-service
invocation. -/
theorem C7_witness :
    (twilioTurn Option.none "2026-02-03" demoChat (some "hola") (fun _ => false)
      (fun _ => "ok") (fun r => (r, some "sunset")) (fun _ => false)).2 =
      [Event.ensuredLanguage "hola", Event.appended ⟨"user", "hola"⟩,
       Event.sentText "+15551234567" "ok",
       Event.appended ⟨"assistant", "ok"⟩,
       Event.appended ⟨"system", imgDirective "sunset"⟩,
       Event.invokedImageGen "sunset", Event.saved] := by
  have h := C7_theorem.1 Option.none "2026-02-03" demoChat "hola" (fun _ => false)
    (fun _ => "ok") (fun r => (r, some "sunset")) (fun _ => false) "sunset"
    (by decide) rfl (by decide)
  rw [h]
  decide


/-- C8, counterexample: the Cloud handler acknowledges and drops every
non-text inbound message — a voice note is never passed to the
Transcription Service (no event is produced at all) and never reaches a
termination check, contradicting the claim for this transport. -/
theorem C8_counterexample :
    process_webhook Option.none "2026-02-03" demoOraclesFail demoAudioPayload
      demoChat = (("ok", 200), demoChat, []) := by
  rfl

/-- C8 (amended): in the Twilio handler (media normalization modelled
from the spec, `app/handlers.verify_and_process_media` not being under
`src/`) an inbound voice note is first handed to the Transcription
Service, before any other action of the turn, and its text becomes the
normalized message; a failed or empty transcription yields the empty
content string, which then takes the empty-input termination branch.
The Cloud handler instead acknowledges and drops every non-text
message without invoking transcription. -/
theorem C8_theorem :
    (∀ (transcribe : String → Option String) (tpl : Option String) (today : String)
        (c0 : Chat) (b : Option String) (url : String) (convEnds : String → Bool)
        (comp : List Message → String) (ext : String → String × Option String)
        (sf : Nat → Bool),
      twilioTurnFromInbound transcribe tpl today c0 ⟨b, some (TwilioMedia.audio url)⟩
          convEnds comp ext sf =
        ((twilioTurn tpl today c0 (some ((transcribe url).getD "")) convEnds
            comp ext sf).1,
         Event.transcribed url ::
           (twilioTurn tpl today c0 (some ((transcribe url).getD "")) convEnds
             comp ext sf).2)) ∧
    (∀ (transcribe : String → Option String) (tpl : Option String) (today : String)
        (c0 : Chat) (b : Option String) (url : String) (convEnds : String → Bool)
        (comp : List Message → String) (ext : String → String × Option String)
        (sf : Nat → Bool), transcribe url = Option.none →
      twilioTurnFromInbound transcribe tpl today c0 ⟨b, some (TwilioMedia.audio url)⟩
          convEnds comp ext sf =
        (twilioSetSystem tpl c0.sender.name today c0,
         [Event.transcribed url,
          Event.sentText c0.sender.phone_number didntUnderstand])) ∧
    (∀ (tpl : Option String) (today : String) (o : CloudOracles) (data : PyVal)
        (chat0 : Chat) (md : MessageData),
      parse_whatsapp_message data = Except.ok (some md) →
      md.type.isStrEq "text" = false →
      process_webhook tpl today o data chat0 = (("ok", 200), chat0, [])) := by
  refine ⟨?_, ?_, ?_⟩
  · intro transcribe tpl today c0 b url convEnds comp ext sf
    simp [twilioTurnFromInbound, verify_and_process_media]
  · intro transcribe tpl today c0 b url convEnds comp ext sf h
    have hmsg : ((transcribe url).getD "") = "" := by rw [h]; rfl
    have hce : check_message_empty (some "") = true := by decide
    simp [twilioTurnFromInbound, verify_and_process_media, h, twilioTurn,
      message_empty_or_goodbye, hce]
  · intro tpl today o data chat0 md hparse htype
    simp [process_webhook, hparse, htype]

/-- C8, witness: a failed transcription of a concrete voice note takes
the empty-input branch with the transcript unchanged. -/
theorem C8_witness :
    twilioTurnFromInbound (fun _ => Option.none) Option.none "2026-02-03" demoChat
      ⟨Option.none, some (TwilioMedia.audio "http-audio")⟩ (fun _ => false)
      (fun _ => "r") (fun r => (r, Option.none)) (fun _ => false) =
      (demoChat, [Event.transcribed "http-audio",
        Event.sentText "+15551234567" didntUnderstand]) := by
  have h := C8_theorem.2.1 (fun _ => Option.none) Option.none "2026-02-03" demoChat
    Option.none "http-audio" (fun _ => false) (fun _ => "r")
    (fun r => (r, Option.none)) (fun _ => false) rfl
  simpa [twilioSetSystem, demoChat] using h

/-- C9: every inbound Cloud webhook POST whose body cannot be parsed
into the canonical message record — `parse_whatsapp_message` returns
`None` on any payload missing the expected
entry/changes/value/messages/contacts nesting, rather than raising — is
answered with an ok-status acknowledgment and HTTP 200, with no sends
and no conversation mutation. -/
theorem C9_theorem :
    (∀ (tpl : Option String) (today : String) (o : CloudOracles) (data : PyVal)
        (chat0 : Chat), parse_whatsapp_message data = Except.ok Option.none →
      process_webhook tpl today o data chat0 = (("ok", 200), chat0, [])) ∧
    (∀ fs : List (String × PyVal), fs.lookup "entry" = Option.none →
      parse_whatsapp_message (PyVal.obj fs) = Except.ok Option.none) := by
  constructor
  · intro tpl today o data chat0 h
    simp [process_webhook, h]
  · intro fs h
    have hbody : parseBody (PyVal.obj fs) = Except.error PyErr.keyErr := by
      simp [parseBody, pyIndexS, h, Bind.bind, Except.bind]
    rw [parse_whatsapp_message, hbody]

/-- C9, witness: a concrete malformed payload (an empty JSON object) is
acknowledged with ok/200 and produces no event. -/
theorem C9_witness :
    process_webhook Option.none "2026-02-03" demoOraclesFail (PyVal.obj [])
      demoChat = (("ok", 200), demoChat, []) :=
  C9_theorem.1 Option.none "2026-02-03" demoOraclesFail (PyVal.obj []) demoChat rfl

/-- C10: the webhook verification endpoint answers the supplied
`hub.challenge` with HTTP 200 exactly when `hub.mode` is `"subscribe"`
and `hub.verify_token` equals the configured verify token (defaulting
to `"your-verify-token"` when the environment variable is unset), and
answers `"Forbidden"` with HTTP 403 in every other case. -/
theorem C10_theorem (envToken : Option String) (mode token challenge : Option String) :
    (verify_webhook envToken mode token challenge = (challenge, 200) ↔
      (mode = some "subscribe" ∧
        token = some (envToken.getD "your-verify-token"))) ∧
    (¬ (mode = some "subscribe" ∧
        token = some (envToken.getD "your-verify-token")) →
      verify_webhook envToken mode token challenge = (some "Forbidden", 403)) := by
  constructor
  · constructor
    · intro h
      by_contra hc
      simp [verify_webhook, hc] at h
    · intro h
      simp [verify_webhook, h]
  · intro h
    simp [verify_webhook, h]

/-- C10, witness: a concrete verification request with the default
token answers the challenge with 200. -/
theorem C10_witness :
    verify_webhook Option.none (some "subscribe") (some "your-verify-token")
      (some "challenge-42") = (some "challenge-42", 200) :=
  (C10_theorem Option.none (some "subscribe") (some "your-verify-token")
    (some "challenge-42")).1.mpr ⟨rfl, rfl⟩

end ChatBot
